import Mathlib

/-!
Verification of the dispute repository (`app/payin/repository/dispute_repo.py`)
and the transfer v0 resource API (`app/payout/api/transfer/v0/api.py`,
`app/payout/api/transfer/v0/models.py`).

The relational store backing each repository is modelled as a list of typed
rows.  A SQL `SELECT ... WHERE p` followed by `fetch_one` is `List.find? p`
(first matching row, or `none`); followed by `fetch_all` it is
`List.filter p`; `UPDATE ... SET ... WHERE p ... RETURNING` maps every
matching row through the `SET` assignment and returns the first updated row.
Timestamps (`datetime`) are modelled as `Int` (ordered); SQL string / integer
columns are `String` / `Int`; nullable columns are `Option`.
-/

namespace Payin

/-- Modelled from the spec: `DisputeIdType` (imported from
`app.payin.core.dispute.types`, not part of this excerpt) is the enumeration of
dispute-id kinds; the spec only distinguishes `STRIPE_DISPUTE_ID` (the
external dispute id, the default) from "any other `id_type`" (internal
numeric id), so one other member suffices. -/
inductive DisputeIdType where
  | STRIPE_DISPUTE_ID
  | DD_STRIPE_DISPUTE_ID
deriving DecidableEq

/-- One row of the `stripe_disputes` table, mirroring `StripeDisputeDbEntity`
in `dispute_repo.py` field for field. -/
structure StripeDisputeDbEntity where
  id : Option Int
  stripe_dispute_id : String
  disputed_at : Int
  amount : Int
  fee : Int
  net : Int
  currency : Option String
  charged_at : Int
  reason : String
  status : String
  evidence_due_by : Int
  evidence_submitted_at : Option Int
  updated_at : Option Int
  stripe_card_id : Int
  stripe_charge_id : Int
deriving DecidableEq

/-- Mirrors `GetStripeDisputeByIdInput`.  The Python model declares
`dispute_id_type: Optional[str]`; the repository compares it against the
`DisputeIdType` enum members, which is what the `Option DisputeIdType`
typing captures. -/
structure GetStripeDisputeByIdInput where
  stripe_dispute_id : String
  dispute_id_type : Option DisputeIdType
deriving DecidableEq

/-- Mirrors `GetAllStripeDisputesByPayerIdInput`. -/
structure GetAllStripeDisputesByPayerIdInput where
  stripe_card_ids : List Int
deriving DecidableEq

/-- Mirrors `UpdateStripeDisputeWhereInput`. -/
structure UpdateStripeDisputeWhereInput where
  id : String
deriving DecidableEq

/-- Mirrors `UpdateStripeDisputeSetInput`: exactly the two settable columns. -/
structure UpdateStripeDisputeSetInput where
  evidence_submitted_at : Int
  updated_at : Int
deriving DecidableEq

/-- Mirrors `GetCumulativeAmountInput`. -/
structure GetCumulativeAmountInput where
  card_ids : List Int
  start_time : Int
  reasons : List String
deriving DecidableEq

/-- A decimal digit's value, or `none` for a non-digit. -/
def digitToNat? (c : Char) : Option Nat :=
  if '0' ≤ c ∧ c ≤ '9' then some (c.toNat - '0'.toNat) else none

/-- Accumulating decimal parse of a character list. -/
def decimalToNatAux : List Char → Nat → Option Nat
  | [], acc => some acc
  | c :: cs, acc =>
    match digitToNat? c with
    | some d => decimalToNatAux cs (acc * 10 + d)
    | none => none

/-- Parse a non-empty all-digit string as a natural number. -/
def decimalToNat? (s : String) : Option Nat :=
  match s.data with
  | [] => none
  | cs => decimalToNatAux cs 0

/-- The comparison `stripe_disputes.id == dispute_input.stripe_dispute_id`
compares the integer `id` column with the string parameter; the store casts
the parameter to an integer, so the row matches when the parameter is the
decimal numeral of the row's internal id. -/
def idMatchesParam (rowId : Option Int) (param : String) : Bool :=
  match rowId, decimalToNat? param with
  | some i, some n => decide (i = (n : Int))
  | _, _ => false

/-- `DisputeRepository.get_dispute_by_dispute_id`: select on
`stripe_dispute_id` when `dispute_id_type` is unset or `STRIPE_DISPUTE_ID`,
otherwise on the internal `id` column; `fetch_one` then `from_row`/`None`. -/
def get_dispute_by_dispute_id (store : List StripeDisputeDbEntity)
    (dispute_input : GetStripeDisputeByIdInput) : Option StripeDisputeDbEntity :=
  if dispute_input.dispute_id_type = none ∨
      dispute_input.dispute_id_type = some DisputeIdType.STRIPE_DISPUTE_ID then
    store.find? (fun e => decide (e.stripe_dispute_id = dispute_input.stripe_dispute_id))
  else
    store.find? (fun e => idMatchesParam e.id dispute_input.stripe_dispute_id)

/-- C1: with `dispute_id_type` unset or `STRIPE_DISPUTE_ID`,
`get_dispute_by_dispute_id` returns a row only if its external
`stripe_dispute_id` equals the given id, and returns `none` exactly when no
row's external id matches; with any other `dispute_id_type` it returns a row
only if its internal numeric id equals the given id (the id string parsing
as that numeral), and returns `none` exactly when no row's internal id
matches.  Absence is `none`, never an error. -/
theorem get_dispute_by_dispute_id_spec (store : List StripeDisputeDbEntity)
    (inp : GetStripeDisputeByIdInput) :
    ((inp.dispute_id_type = none ∨ inp.dispute_id_type = some DisputeIdType.STRIPE_DISPUTE_ID) →
      (∀ e, get_dispute_by_dispute_id store inp = some e →
        e.stripe_dispute_id = inp.stripe_dispute_id) ∧
      (get_dispute_by_dispute_id store inp = none ↔
        ∀ e ∈ store, e.stripe_dispute_id ≠ inp.stripe_dispute_id)) ∧
    ((inp.dispute_id_type ≠ none ∧ inp.dispute_id_type ≠ some DisputeIdType.STRIPE_DISPUTE_ID) →
      (∀ e, get_dispute_by_dispute_id store inp = some e →
        ∃ n, decimalToNat? inp.stripe_dispute_id = some n ∧ e.id = some (n : Int)) ∧
      (get_dispute_by_dispute_id store inp = none ↔
        ∀ e ∈ store, ∀ n, decimalToNat? inp.stripe_dispute_id = some n → e.id ≠ some (n : Int))) := by
  constructor
  · intro hty
    have hif : get_dispute_by_dispute_id store inp =
        store.find? (fun e => decide (e.stripe_dispute_id = inp.stripe_dispute_id)) := by
      unfold get_dispute_by_dispute_id
      exact if_pos hty
    constructor
    · intro e he
      rw [hif] at he
      have := List.find?_some he
      simpa using this
    · rw [hif, List.find?_eq_none]
      simp
  · intro hty
    have hif : get_dispute_by_dispute_id store inp =
        store.find? (fun e => idMatchesParam e.id inp.stripe_dispute_id) := by
      unfold get_dispute_by_dispute_id
      rw [if_neg]
      push_neg
      exact hty
    constructor
    · intro e he
      rw [hif] at he
      have h := List.find?_some he
      unfold idMatchesParam at h
      rcases hid : e.id with _ | i
      · rw [hid] at h; simp at h
      · rcases hn : decimalToNat? inp.stripe_dispute_id with _ | n
        · rw [hid, hn] at h; simp at h
        · rw [hid, hn] at h
          simp at h
          exact ⟨n, rfl, by simp [h]⟩
    · rw [hif, List.find?_eq_none]
      constructor
      · intro h e he n hn
        have := h e he
        unfold idMatchesParam at this
        intro hid
        rw [hid, hn] at this
        simp at this
      · intro h e he
        unfold idMatchesParam
        rcases hid : e.id with _ | i
        · simp
        · rcases hn : decimalToNat? inp.stripe_dispute_id with _ | n
          · simp
          · simp
            intro hin
            exact h e he n hn (by rw [hid, hin])

/-- Sample dispute row used by concrete witnesses. -/
def sampleDispute : StripeDisputeDbEntity :=
  { id := some 7
    stripe_dispute_id := "du_1"
    disputed_at := 100
    amount := 500
    fee := 15
    net := 485
    currency := some "usd"
    charged_at := 90
    reason := "fraudulent"
    status := "needs_response"
    evidence_due_by := 200
    evidence_submitted_at := none
    updated_at := none
    stripe_card_id := 3
    stripe_charge_id := 4 }

/-- Witness for C1: on a concrete one-row store, the default-id-type lookup
that returns the row has indeed matched its external dispute id, and the
internal-id lookup returns the row whose numeric id the parameter names. -/
theorem get_dispute_by_dispute_id_spec_witness :
    sampleDispute.stripe_dispute_id = "du_1" ∧
    (∃ n, decimalToNat? "7" = some n ∧ sampleDispute.id = some (n : Int)) := by
  constructor
  · exact ((get_dispute_by_dispute_id_spec [sampleDispute]
      { stripe_dispute_id := "du_1", dispute_id_type := none }).1
      (Or.inl rfl)).1 sampleDispute (by decide)
  · exact ((get_dispute_by_dispute_id_spec [sampleDispute]
      { stripe_dispute_id := "7",
        dispute_id_type := some DisputeIdType.DD_STRIPE_DISPUTE_ID }).2
      (by constructor <;> decide)).1 sampleDispute (by decide)

/-- The `SET` clause of `update_dispute_details`:
`.values(request_set.dict())` assigns exactly the two columns of
`UpdateStripeDisputeSetInput` and leaves every other column alone. -/
def applyDisputeSet (e : StripeDisputeDbEntity) (s : UpdateStripeDisputeSetInput) :
    StripeDisputeDbEntity :=
  { e with
    evidence_submitted_at := some s.evidence_submitted_at
    updated_at := some s.updated_at }

/-- The effect of `UPDATE ... WHERE stripe_dispute_id = wid` on the table. -/
def updateWhere (store : List StripeDisputeDbEntity) (s : UpdateStripeDisputeSetInput)
    (wid : String) : List StripeDisputeDbEntity :=
  store.map (fun e => if e.stripe_dispute_id = wid then applyDisputeSet e s else e)

/-- `DisputeRepository.update_dispute_details`: `UPDATE ... SET ...
WHERE stripe_dispute_id = request_where.id ... RETURNING *` then `fetch_one`:
the new table state together with the first updated row (or `none`). -/
def update_dispute_details (store : List StripeDisputeDbEntity)
    (request_set : UpdateStripeDisputeSetInput)
    (request_where : UpdateStripeDisputeWhereInput) :
    List StripeDisputeDbEntity × Option StripeDisputeDbEntity :=
  (updateWhere store request_set request_where.id,
   (updateWhere store request_set request_where.id).find?
     (fun e => decide (e.stripe_dispute_id = request_where.id)))

/-- `DisputeRepository.list_disputes_by_payer_id`: select rows whose
`stripe_card_id` is in the input list, `fetch_all`. -/
def list_disputes_by_payer_id (store : List StripeDisputeDbEntity)
    (input : GetAllStripeDisputesByPayerIdInput) : List StripeDisputeDbEntity :=
  store.filter (fun e => decide (e.stripe_card_id ∈ input.stripe_card_ids))

/-- `DisputeRepository.get_disputes_by_dd_consumer_id`: conjunctive select on
card-id membership, reason membership, and `disputed_at > start_time`. -/
def get_disputes_by_dd_consumer_id (store : List StripeDisputeDbEntity)
    (cumulative_amount_input : GetCumulativeAmountInput) : List StripeDisputeDbEntity :=
  store.filter (fun e =>
    decide (e.stripe_card_id ∈ cumulative_amount_input.card_ids) &&
    decide (e.reason ∈ cumulative_amount_input.reasons) &&
    decide (cumulative_amount_input.start_time < e.disputed_at))

/-- A pair aligned by `zip` of a list with its image under `map` relates each
element to its image. -/
theorem zip_map_pair_eq {α β : Type} (f : α → β) :
    ∀ (l : List α) (a : α) (b : β), (a, b) ∈ l.zip (l.map f) → b = f a := by
  intro l
  induction l with
  | nil =>
    intro a b hab
    simp at hab
  | cons x xs ih =>
    intro a b hab
    rw [List.map_cons, List.zip_cons_cons, List.mem_cons] at hab
    rcases hab with hab | hab
    · rw [Prod.mk.injEq] at hab
      rw [hab.2, hab.1]
    · exact ih a b hab

/-- C3: `update_dispute_details` preserves the number of rows; a row whose
external dispute id differs from the where-id is unchanged, and a matching
row keeps all thirteen other fields identical while `evidence_submitted_at`
and `updated_at` take the set-input values. -/
theorem update_dispute_details_frame (store : List StripeDisputeDbEntity)
    (s : UpdateStripeDisputeSetInput) (w : UpdateStripeDisputeWhereInput) :
    ((update_dispute_details store s w).1.length = store.length) ∧
    (∀ before after, (before, after) ∈ store.zip (update_dispute_details store s w).1 →
      (before.stripe_dispute_id ≠ w.id → after = before) ∧
      (before.stripe_dispute_id = w.id →
        after.id = before.id ∧
        after.stripe_dispute_id = before.stripe_dispute_id ∧
        after.disputed_at = before.disputed_at ∧
        after.amount = before.amount ∧
        after.fee = before.fee ∧
        after.net = before.net ∧
        after.currency = before.currency ∧
        after.charged_at = before.charged_at ∧
        after.reason = before.reason ∧
        after.status = before.status ∧
        after.evidence_due_by = before.evidence_due_by ∧
        after.stripe_card_id = before.stripe_card_id ∧
        after.stripe_charge_id = before.stripe_charge_id ∧
        after.evidence_submitted_at = some s.evidence_submitted_at ∧
        after.updated_at = some s.updated_at)) := by
  constructor
  · simp [update_dispute_details, updateWhere]
  · intro before after hmem
    have hb : after = if before.stripe_dispute_id = w.id then applyDisputeSet before s
        else before :=
      zip_map_pair_eq
        (fun e : StripeDisputeDbEntity =>
          if e.stripe_dispute_id = w.id then applyDisputeSet e s else e)
        store before after (by exact hmem)
    constructor
    · intro hne
      rw [hb, if_neg hne]
    · intro heq
      rw [hb, if_pos heq]
      exact ⟨rfl, rfl, rfl, rfl, rfl, rfl, rfl, rfl, rfl, rfl, rfl, rfl, rfl, rfl, rfl⟩

/-- Witness for C3: updating the one-row store at the matching where-id
leaves all thirteen other fields of the row unchanged and sets the two
timestamps. -/
theorem update_dispute_details_frame_witness :
    (applyDisputeSet sampleDispute ⟨150, 160⟩).id = sampleDispute.id ∧
    (applyDisputeSet sampleDispute ⟨150, 160⟩).stripe_dispute_id = sampleDispute.stripe_dispute_id ∧
    (applyDisputeSet sampleDispute ⟨150, 160⟩).disputed_at = sampleDispute.disputed_at ∧
    (applyDisputeSet sampleDispute ⟨150, 160⟩).amount = sampleDispute.amount ∧
    (applyDisputeSet sampleDispute ⟨150, 160⟩).fee = sampleDispute.fee ∧
    (applyDisputeSet sampleDispute ⟨150, 160⟩).net = sampleDispute.net ∧
    (applyDisputeSet sampleDispute ⟨150, 160⟩).currency = sampleDispute.currency ∧
    (applyDisputeSet sampleDispute ⟨150, 160⟩).charged_at = sampleDispute.charged_at ∧
    (applyDisputeSet sampleDispute ⟨150, 160⟩).reason = sampleDispute.reason ∧
    (applyDisputeSet sampleDispute ⟨150, 160⟩).status = sampleDispute.status ∧
    (applyDisputeSet sampleDispute ⟨150, 160⟩).evidence_due_by = sampleDispute.evidence_due_by ∧
    (applyDisputeSet sampleDispute ⟨150, 160⟩).stripe_card_id = sampleDispute.stripe_card_id ∧
    (applyDisputeSet sampleDispute ⟨150, 160⟩).stripe_charge_id = sampleDispute.stripe_charge_id ∧
    (applyDisputeSet sampleDispute ⟨150, 160⟩).evidence_submitted_at = some 150 ∧
    (applyDisputeSet sampleDispute ⟨150, 160⟩).updated_at = some 160 :=
  ((update_dispute_details_frame [sampleDispute] ⟨150, 160⟩ ⟨"du_1"⟩).2 sampleDispute
    (applyDisputeSet sampleDispute ⟨150, 160⟩) (by decide)).2 rfl

/-- C6: `update_dispute_details` returns the first row matching the where-id
in its post-update state; when no row matches it returns `none` and the
store is unchanged; when some row matches, the returned row is in the new
store, matches the where-id, and carries the two set values. -/
theorem update_dispute_details_result (store : List StripeDisputeDbEntity)
    (s : UpdateStripeDisputeSetInput) (w : UpdateStripeDisputeWhereInput) :
    ((update_dispute_details store s w).2 =
      (store.find? (fun e => decide (e.stripe_dispute_id = w.id))).map
        (fun e => applyDisputeSet e s)) ∧
    ((∀ e ∈ store, e.stripe_dispute_id ≠ w.id) →
      update_dispute_details store s w = (store, none)) ∧
    ((∃ e ∈ store, e.stripe_dispute_id = w.id) →
      ∃ r, (update_dispute_details store s w).2 = some r ∧
        r ∈ (update_dispute_details store s w).1 ∧
        r.stripe_dispute_id = w.id ∧
        r.evidence_submitted_at = some s.evidence_submitted_at ∧
        r.updated_at = some s.updated_at) := by
  have hcomp :
      (fun e => decide (e.stripe_dispute_id = w.id)) ∘
        (fun e => if e.stripe_dispute_id = w.id then applyDisputeSet e s else e) =
      (fun e : StripeDisputeDbEntity => decide (e.stripe_dispute_id = w.id)) := by
    funext e
    by_cases h : e.stripe_dispute_id = w.id <;> simp [applyDisputeSet, h]
  have hmain : (update_dispute_details store s w).2 =
      (store.find? (fun e => decide (e.stripe_dispute_id = w.id))).map
        (fun e => applyDisputeSet e s) := by
    show (updateWhere store s w.id).find? _ = _
    rw [updateWhere, List.find?_map, hcomp]
    rcases hfind : store.find? (fun e => decide (e.stripe_dispute_id = w.id)) with _ | a
    · rw [hfind]
      rfl
    · have ha : a.stripe_dispute_id = w.id := by simpa using List.find?_some hfind
      rw [hfind]
      simp [ha]
  refine ⟨hmain, ?_, ?_⟩
  · intro h
    have hmap : updateWhere store s w.id = store := by
      rw [updateWhere]
      have : store.map (fun e => if e.stripe_dispute_id = w.id then applyDisputeSet e s else e) =
          store.map id :=
        List.map_congr_left (fun a ha => by rw [if_neg (h a ha)]; rfl)
      rw [this, List.map_id]
    have hfind : store.find? (fun e => decide (e.stripe_dispute_id = w.id)) = none :=
      List.find?_eq_none.mpr (by intro a ha; simpa using h a ha)
    have h2 : (update_dispute_details store s w).2 = none := by rw [hmain, hfind]; rfl
    have h1 : (update_dispute_details store s w).1 = store := hmap
    calc update_dispute_details store s w
        = ((update_dispute_details store s w).1, (update_dispute_details store s w).2) := rfl
      _ = (store, none) := by rw [h1, h2]
  · rintro ⟨e, he, heq⟩
    have hsome : (store.find? (fun e => decide (e.stripe_dispute_id = w.id))).isSome :=
      List.find?_isSome.mpr ⟨e, he, by simpa using heq⟩
    rcases hfind : store.find? (fun e => decide (e.stripe_dispute_id = w.id)) with _ | a
    · rw [hfind] at hsome; simp at hsome
    · have ha : a.stripe_dispute_id = w.id := by simpa using List.find?_some hfind
      have hamem : a ∈ store := List.mem_of_find?_eq_some hfind
      refine ⟨applyDisputeSet a s, ?_, ?_, ha, rfl, rfl⟩
      · rw [hmain, hfind]; rfl
      · show applyDisputeSet a s ∈ updateWhere store s w.id
        rw [updateWhere]
        have : applyDisputeSet a s =
            (fun e => if e.stripe_dispute_id = w.id then applyDisputeSet e s else e) a := by
          simp [ha]
        rw [this]
        exact List.mem_map_of_mem _ hamem

/-- Witness for C6: updating a one-row store with a where-id matching no row
returns the store unchanged and `none`. -/
theorem update_dispute_details_result_witness :
    update_dispute_details [sampleDispute] ⟨150, 160⟩ ⟨"du_999"⟩ = ([sampleDispute], none) :=
  (update_dispute_details_result [sampleDispute] ⟨150, 160⟩ ⟨"du_999"⟩).2.1 (by decide)

/-- C5: `list_disputes_by_payer_id` keeps exactly the stored disputes whose
`stripe_card_id` belongs to the input card-id list, and the empty card-id
list yields the empty result. -/
theorem list_disputes_by_payer_id_spec (store : List StripeDisputeDbEntity)
    (input : GetAllStripeDisputesByPayerIdInput) :
    (∀ e, e ∈ list_disputes_by_payer_id store input ↔
      e ∈ store ∧ e.stripe_card_id ∈ input.stripe_card_ids) ∧
    (input.stripe_card_ids = [] → list_disputes_by_payer_id store input = []) := by
  constructor
  · intro e
    simp [list_disputes_by_payer_id, List.mem_filter]
  · intro h
    simp [list_disputes_by_payer_id, h]

/-- Witness for C5: the empty card-id list yields the empty result on a
nonempty store. -/
theorem list_disputes_by_payer_id_spec_witness :
    list_disputes_by_payer_id [sampleDispute] ⟨[]⟩ = [] :=
  (list_disputes_by_payer_id_spec [sampleDispute] ⟨[]⟩).2 rfl

/-- C4: a dispute is returned by `get_disputes_by_dd_consumer_id` iff it is
stored, its card id is in `card_ids`, its reason is in `reasons`, and its
`disputed_at` is strictly greater than `start_time`; in particular a stored
dispute with `disputed_at = start_time` is excluded. -/
theorem get_disputes_by_dd_consumer_id_spec (store : List StripeDisputeDbEntity)
    (inp : GetCumulativeAmountInput) :
    (∀ e, e ∈ get_disputes_by_dd_consumer_id store inp ↔
      e ∈ store ∧ e.stripe_card_id ∈ inp.card_ids ∧ e.reason ∈ inp.reasons ∧
        inp.start_time < e.disputed_at) ∧
    (∀ e ∈ store, e.disputed_at = inp.start_time →
      e ∉ get_disputes_by_dd_consumer_id store inp) := by
  have hmem : ∀ e, e ∈ get_disputes_by_dd_consumer_id store inp ↔
      e ∈ store ∧ e.stripe_card_id ∈ inp.card_ids ∧ e.reason ∈ inp.reasons ∧
        inp.start_time < e.disputed_at := by
    intro e
    simp [get_disputes_by_dd_consumer_id, List.mem_filter, and_assoc]
  refine ⟨hmem, ?_⟩
  intro e _ heq hin
  have := ((hmem e).1 hin).2.2.2
  rw [heq] at this
  exact lt_irrefl _ this

/-- Witness for C4: a dispute whose card id and reason match but whose
`disputed_at` equals `start_time` is excluded from the result. -/
theorem get_disputes_by_dd_consumer_id_spec_witness :
    sampleDispute ∉ get_disputes_by_dd_consumer_id [sampleDispute] ⟨[3], 100, ["fraudulent"]⟩ :=
  (get_disputes_by_dd_consumer_id_spec [sampleDispute] ⟨[3], 100, ["fraudulent"]⟩).2
    sampleDispute (by decide) rfl

/-- Modelled from the spec: the `StripeDispute` domain object (imported from
`app.payin.core.dispute.model`, not part of this excerpt) carries the dispute
fields of the data model in §3 of the spec, the same fifteen fields the
conversion call site names. -/
structure StripeDispute where
  id : Option Int
  stripe_dispute_id : String
  disputed_at : Int
  amount : Int
  fee : Int
  net : Int
  currency : Option String
  charged_at : Int
  reason : String
  status : String
  evidence_due_by : Int
  evidence_submitted_at : Option Int
  updated_at : Option Int
  stripe_card_id : Int
  stripe_charge_id : Int
deriving DecidableEq

/-- `StripeDisputeDbEntity.to_stripe_dispute`: constructs the domain object
with each keyword argument taken from the identically named entity field. -/
def StripeDisputeDbEntity.to_stripe_dispute (e : StripeDisputeDbEntity) : StripeDispute :=
  { id := e.id
    stripe_dispute_id := e.stripe_dispute_id
    disputed_at := e.disputed_at
    amount := e.amount
    fee := e.fee
    net := e.net
    currency := e.currency
    charged_at := e.charged_at
    reason := e.reason
    status := e.status
    evidence_due_by := e.evidence_due_by
    evidence_submitted_at := e.evidence_submitted_at
    updated_at := e.updated_at
    stripe_card_id := e.stripe_card_id
    stripe_charge_id := e.stripe_charge_id }

/-- C10: the entity-to-domain conversion is a field-for-field identity
mapping: each of the fifteen fields of `e.to_stripe_dispute` equals the
identically named field of `e`. -/
theorem to_stripe_dispute_identity (e : StripeDisputeDbEntity) :
    e.to_stripe_dispute.id = e.id ∧
    e.to_stripe_dispute.stripe_dispute_id = e.stripe_dispute_id ∧
    e.to_stripe_dispute.disputed_at = e.disputed_at ∧
    e.to_stripe_dispute.amount = e.amount ∧
    e.to_stripe_dispute.fee = e.fee ∧
    e.to_stripe_dispute.net = e.net ∧
    e.to_stripe_dispute.currency = e.currency ∧
    e.to_stripe_dispute.charged_at = e.charged_at ∧
    e.to_stripe_dispute.reason = e.reason ∧
    e.to_stripe_dispute.status = e.status ∧
    e.to_stripe_dispute.evidence_due_by = e.evidence_due_by ∧
    e.to_stripe_dispute.evidence_submitted_at = e.evidence_submitted_at ∧
    e.to_stripe_dispute.updated_at = e.updated_at ∧
    e.to_stripe_dispute.stripe_card_id = e.stripe_card_id ∧
    e.to_stripe_dispute.stripe_charge_id = e.stripe_charge_id :=
  ⟨rfl, rfl, rfl, rfl, rfl, rfl, rfl, rfl, rfl, rfl, rfl, rfl, rfl, rfl, rfl⟩

end Payin

namespace Payout

/-- The `StripeTransfer` wire model of `models.py` (declared there as a flat
copy of the db domain model so the v0 wire contract stays stable even if the
underlying db model changes). -/
structure StripeTransfer where
  id : Int
  created_at : Int
  transfer_id : Int
  stripe_status : String
  stripe_id : Option String
  stripe_request_id : Option String
  stripe_failure_code : Option String
  stripe_account_id : Option String
  stripe_account_type : Option String
  country_shortname : Option String
  bank_last_four : Option String
  bank_name : Option String
  submission_error_code : Option String
  submission_error_type : Option String
  submission_status : Option String
  submitted_at : Option Int
deriving DecidableEq

/-- Modelled from the spec: the `Transfer` domain model (imported from
`app.payout.repository.maindb.model.transfer`, not part of this excerpt) is
"identified by an internal id"; only the id matters to the lookups here. -/
structure Transfer where
  id : Int
deriving DecidableEq

/-- Mirrors `PaymentException` as constructed by `_transfer_not_found` and
`_stripe_transfer_not_found` in `api.py`. -/
structure PaymentException where
  http_status_code : Nat
  error_code : String
  error_message : String
  retryable : Bool
deriving DecidableEq

/-- Modelled from the spec: the `Acknowledgement` response model
(`app.payout.api.response`, not part of this excerpt) is a fixed
acknowledgement body carrying no data. -/
inductive Acknowledgement where
  | mk
deriving DecidableEq

/-- An HTTP success response: the route's declared status code and the
(possibly null) response body. -/
structure HttpResponse (α : Type) where
  status_code : Nat
  body : Option α
deriving DecidableEq

/-- Modelled from the spec:
`TransferRepository.get_stripe_transfer_by_stripe_id` (not part of this
excerpt) returns the at-most-one stored stripe transfer whose processor id
equals `stripe_id` ("processor transfer id, when present, is unique"), or
absence. -/
def get_stripe_transfer_by_stripe_id_repo (store : List StripeTransfer)
    (stripe_id : String) : Option StripeTransfer :=
  store.find? (fun t => decide (t.stripe_id = some stripe_id))

/-- `GET /stripe/_get-by-stripe-id` (`get_stripe_transfer_by_stripe_id` in
`api.py`): the route declares `status_code=HTTP_200_OK` with a nullable
response model; the handler returns the found record, else `None`. -/
def get_stripe_transfer_by_stripe_id (store : List StripeTransfer)
    (stripe_id : String) : HttpResponse StripeTransfer :=
  { status_code := 200
    body := get_stripe_transfer_by_stripe_id_repo store stripe_id }

/-- C7: the by-processor-id lookup endpoint always responds 200 — with a null
body when no stored stripe transfer carries that processor id (never a 404),
and any returned record carries the requested processor id. -/
theorem get_stripe_transfer_by_stripe_id_spec (store : List StripeTransfer)
    (stripe_id : String) :
    ((get_stripe_transfer_by_stripe_id store stripe_id).status_code = 200) ∧
    ((∀ t ∈ store, t.stripe_id ≠ some stripe_id) →
      (get_stripe_transfer_by_stripe_id store stripe_id).body = none) ∧
    (∀ t, (get_stripe_transfer_by_stripe_id store stripe_id).body = some t →
      t.stripe_id = some stripe_id) := by
  refine ⟨rfl, ?_, ?_⟩
  · intro h
    show get_stripe_transfer_by_stripe_id_repo store stripe_id = none
    apply List.find?_eq_none.mpr
    intro t ht
    simpa using h t ht
  · intro t ht
    have ht' : store.find? (fun t => decide (t.stripe_id = some stripe_id)) = some t := ht
    simpa using List.find?_some ht'

/-- Witness for C7: on the empty store the endpoint responds 200 with a null
body. -/
theorem get_stripe_transfer_by_stripe_id_spec_witness :
    (get_stripe_transfer_by_stripe_id [] "tr_x").status_code = 200 ∧
    (get_stripe_transfer_by_stripe_id [] "tr_x").body = none :=
  ⟨(get_stripe_transfer_by_stripe_id_spec [] "tr_x").1,
   (get_stripe_transfer_by_stripe_id_spec [] "tr_x").2.1 (by decide)⟩

/-- Modelled from the spec:
`TransferRepository.delete_stripe_transfer_by_stripe_id` (not part of this
excerpt) removes the stored stripe transfers whose processor id equals
`stripe_id`; deleting a non-existent record is success, not an error. -/
def delete_stripe_transfer_by_stripe_id_repo (store : List StripeTransfer)
    (stripe_id : String) : List StripeTransfer :=
  store.filter (fun t => !decide (t.stripe_id = some stripe_id))

/-- `DELETE /stripe/_delete-by-stripe-id` (`delete_stripe_transfer_by_stripe_id`
in `api.py`): performs the repository delete and unconditionally returns a
200 acknowledgement. -/
def delete_stripe_transfer_by_stripe_id (store : List StripeTransfer)
    (stripe_id : String) : List StripeTransfer × HttpResponse Acknowledgement :=
  (delete_stripe_transfer_by_stripe_id_repo store stripe_id,
   { status_code := 200, body := some Acknowledgement.mk })

/-- C8: the delete-by-processor-id endpoint responds 200 with an
acknowledgement body for every store and every id — also when nothing
matched — and repeating the delete leaves store and response unchanged
(idempotence). -/
theorem delete_stripe_transfer_by_stripe_id_spec (store : List StripeTransfer)
    (stripe_id : String) :
    ((delete_stripe_transfer_by_stripe_id store stripe_id).2 =
      { status_code := 200, body := some Acknowledgement.mk }) ∧
    (delete_stripe_transfer_by_stripe_id
        (delete_stripe_transfer_by_stripe_id store stripe_id).1 stripe_id =
      delete_stripe_transfer_by_stripe_id store stripe_id) := by
  refine ⟨rfl, ?_⟩
  have hrepo : delete_stripe_transfer_by_stripe_id_repo
      (delete_stripe_transfer_by_stripe_id_repo store stripe_id) stripe_id =
      delete_stripe_transfer_by_stripe_id_repo store stripe_id := by
    show (store.filter _).filter _ = store.filter _
    rw [List.filter_filter]
    congr 1
    funext t
    exact Bool.and_self _
  show (delete_stripe_transfer_by_stripe_id_repo
      (delete_stripe_transfer_by_stripe_id_repo store stripe_id) stripe_id,
      ({ status_code := 200, body := some Acknowledgement.mk } :
        HttpResponse Acknowledgement)) = _
  rw [hrepo]
  rfl

/-- Modelled from the spec: `TransferRepository.get_transfer_by_id` (not part
of this excerpt) looks up the transfer with the given internal id, or
absence. -/
def get_transfer_by_id_repo (store : List Transfer) (transfer_id : Int) :
    Option Transfer :=
  store.find? (fun t => decide (t.id = transfer_id))

/-- `_transfer_not_found` in `api.py`: the structured 404 payment error. -/
def transfer_not_found : PaymentException :=
  { http_status_code := 404
    error_code := "transfer_not_found"
    error_message := "transfer not found"
    retryable := false }

/-- `GET /{transfer_id}` (`get_transfer_by_id` in `api.py`): look the
transfer up by internal id and raise `_transfer_not_found()` when absent,
else return the transfer. -/
def get_transfer_by_id (store : List Transfer) (transfer_id : Int) :
    Except PaymentException Transfer :=
  match get_transfer_by_id_repo store transfer_id with
  | some t => Except.ok t
  | none => Except.error transfer_not_found

/-- C9: when no stored transfer has the requested id, `GET /{transfer_id}`
produces the structured error with status 404, error code
`transfer_not_found`, and `retryable = false`. -/
theorem get_transfer_by_id_not_found (store : List Transfer) (transfer_id : Int)
    (h : ∀ t ∈ store, t.id ≠ transfer_id) :
    get_transfer_by_id store transfer_id = Except.error
      { http_status_code := 404
        error_code := "transfer_not_found"
        error_message := "transfer not found"
        retryable := false } := by
  have hfind : get_transfer_by_id_repo store transfer_id = none := by
    apply List.find?_eq_none.mpr
    intro t ht
    simpa using h t ht
  unfold get_transfer_by_id
  rw [hfind]
  rfl

/-- Witness for C9: the empty store yields the 404 `transfer_not_found`
error. -/
theorem get_transfer_by_id_not_found_witness :
    get_transfer_by_id [] 5 = Except.error
      { http_status_code := 404
        error_code := "transfer_not_found"
        error_message := "transfer not found"
        retryable := false } :=
  get_transfer_by_id_not_found [] 5 (by decide)

/-- The fields of the `StripeTransferCreate` / `StripeTransferUpdate` wire
models in `models.py` (the create model requires `transfer_id` and
`stripe_status`; the update model has all fourteen optional). -/
inductive StripeTransferField where
  | stripe_id
  | stripe_request_id
  | stripe_failure_code
  | stripe_account_id
  | stripe_account_type
  | country_shortname
  | bank_last_four
  | bank_name
  | submission_error_code
  | submission_error_type
  | submission_status
  | submitted_at
  | stripe_status
  | transfer_id
deriving DecidableEq

/-- A wire field's (JSON) value: string, or integer / datetime. -/
inductive FieldValue where
  | str : String → FieldValue
  | int : Int → FieldValue
deriving DecidableEq

/-- The `StripeTransferCreate` wire model as validated at the HTTP boundary:
a per-field (nullable) value together with the set of fields the client
explicitly provided — the request layer tracks field presence separately
from the value being null. -/
structure StripeTransferCreate where
  value : StripeTransferField → Option FieldValue
  fields_set : List StripeTransferField

/-- The `StripeTransferUpdate` wire model as validated at the HTTP boundary,
with the same per-field presence tracking. -/
structure StripeTransferUpdate where
  value : StripeTransferField → Option FieldValue
  fields_set : List StripeTransferField

/-- Modelled from the spec: pydantic's `dict(skip_defaults=True)` (the
validation/serialization facility, not part of this excerpt) serializes
exactly the explicitly-set fields — "create/update forwards only
explicitly-set fields", a field-presence requirement, not a null check. -/
def dict_skip_defaults (value : StripeTransferField → Option FieldValue)
    (fields_set : List StripeTransferField) :
    List (StripeTransferField × Option FieldValue) :=
  fields_set.map (fun f => (f, value f))

/-- `create_stripe_transfer` in `api.py`: the internal create request is
built as `stripe_transfer.StripeTransferCreate(**data.dict(skip_defaults=True))`,
so it consists of exactly the explicitly-set wire fields. -/
def create_stripe_transfer_forwarded (data : StripeTransferCreate) :
    List (StripeTransferField × Option FieldValue) :=
  dict_skip_defaults data.value data.fields_set

/-- `update_stripe_transfer_by_id` in `api.py`: the internal update request
is built as `stripe_transfer.StripeTransferUpdate(**body.dict(skip_defaults=True))`. -/
def update_stripe_transfer_by_id_forwarded (body : StripeTransferUpdate) :
    List (StripeTransferField × Option FieldValue) :=
  dict_skip_defaults body.value body.fields_set

/-- Modelled from the spec: the repository's partial update assigns exactly
the fields present in the forwarded request to the stored row; absent fields
keep their stored value ("only supplied fields change"). -/
def apply_stripe_transfer_update
    (req : List (StripeTransferField × Option FieldValue))
    (row : StripeTransferField → Option FieldValue) :
    StripeTransferField → Option FieldValue :=
  fun f =>
    match req.lookup f with
    | some v => v
    | none => row f

/-- A key absent from the key list is absent from the derived dictionary. -/
theorem lookup_map_none {α β : Type} [DecidableEq α] (v : α → β) :
    ∀ (l : List α) (f : α), f ∉ l → (l.map (fun g => (g, v g))).lookup f = none := by
  intro l
  induction l with
  | nil =>
    intro f _
    rfl
  | cons x xs ih =>
    intro f hf
    have hne : f ≠ x := fun h => hf (h ▸ List.mem_cons_self x xs)
    have hbeq : (f == x) = false := beq_eq_false_iff_ne.mpr hne
    rw [List.map_cons]
    simp only [List.lookup, hbeq]
    exact ih f (fun h => hf (List.mem_cons_of_mem x h))

/-- C2: a field/value pair is forwarded to the repository create (resp.
update) call iff the client explicitly set that field, with the client's
value; and the partial update built from the forwarded request leaves every
stored field the client did not explicitly set unchanged — presence is
tracked per field, never inferred from the value being null. -/
theorem stripe_transfer_forwarding_spec (data : StripeTransferCreate)
    (body : StripeTransferUpdate) :
    (∀ f v, (f, v) ∈ create_stripe_transfer_forwarded data ↔
      f ∈ data.fields_set ∧ v = data.value f) ∧
    (∀ f v, (f, v) ∈ update_stripe_transfer_by_id_forwarded body ↔
      f ∈ body.fields_set ∧ v = body.value f) ∧
    (∀ row f, f ∉ body.fields_set →
      apply_stripe_transfer_update (update_stripe_transfer_by_id_forwarded body)
        row f = row f) := by
  refine ⟨?_, ?_, ?_⟩
  · intro f v
    constructor
    · intro h
      rcases List.mem_map.mp h with ⟨g, hg, hgv⟩
      injection hgv with h1 h2
      subst h1
      exact ⟨hg, h2.symm⟩
    · rintro ⟨hf, hv⟩
      subst hv
      exact List.mem_map.mpr ⟨f, hf, rfl⟩
  · intro f v
    constructor
    · intro h
      rcases List.mem_map.mp h with ⟨g, hg, hgv⟩
      injection hgv with h1 h2
      subst h1
      exact ⟨hg, h2.symm⟩
    · rintro ⟨hf, hv⟩
      subst hv
      exact List.mem_map.mpr ⟨f, hf, rfl⟩
  · intro row f hf
    have hnone : (update_stripe_transfer_by_id_forwarded body).lookup f = none :=
      lookup_map_none body.value body.fields_set f hf
    unfold apply_stripe_transfer_update
    rw [hnone]

/-- Update body that explicitly sets only `stripe_status`, used by the C2
witness. -/
def sampleUpdateBody : StripeTransferUpdate :=
  { value := fun f =>
      match f with
      | StripeTransferField.stripe_status => some (FieldValue.str "paid")
      | _ => none
    fields_set := [StripeTransferField.stripe_status] }

/-- Create body that explicitly sets only the two required fields, used by
the C2 witness. -/
def sampleCreateBody : StripeTransferCreate :=
  { value := fun f =>
      match f with
      | StripeTransferField.transfer_id => some (FieldValue.int 1)
      | StripeTransferField.stripe_status => some (FieldValue.str "pending")
      | _ => none
    fields_set := [StripeTransferField.transfer_id, StripeTransferField.stripe_status] }

/-- A stored row with a bank name, used by the C2 witness. -/
def sampleStoredRow : StripeTransferField → Option FieldValue :=
  fun f =>
    match f with
    | StripeTransferField.bank_name => some (FieldValue.str "Chase")
    | _ => none

/-- Witness for C2: an update that explicitly sets only `stripe_status` does
not overwrite the stored `bank_name`. -/
theorem stripe_transfer_forwarding_spec_witness :
    apply_stripe_transfer_update
      (update_stripe_transfer_by_id_forwarded sampleUpdateBody) sampleStoredRow
      StripeTransferField.bank_name = sampleStoredRow StripeTransferField.bank_name :=
  (stripe_transfer_forwarding_spec sampleCreateBody sampleUpdateBody).2.2
    sampleStoredRow StripeTransferField.bank_name (by decide)

end Payout
